import Mathlib

/-!
Verification of the build-configuration resolution and command-construction
pipeline of the kotlin-llvm-builder scripts (`utils.py`, `build.py`).

The Python code is shallowly embedded: the host platform (`sys.platform`
checks) becomes an explicit `Host` parameter, module-level globals
(`isysroot`, `vsdevcmd`) and the current working directory become explicit
parameters, printing and subprocess execution become fields of an explicit
outcome record, and `sys.exit` becomes `Except.error`.
-/

namespace LlvmBuilder

/-- Host platform, as distinguished by `sys.platform` checks in `utils.py`
(`host_is_windows`, `host_is_linux`, `host_is_darwin`). -/
inductive Host where
  | windows
  | linux
  | darwin
  | other
deriving DecidableEq

/-- Python `sep.join(parts)`. -/
def pyJoin (sep : String) : List String → String
  | [] => ""
  | [x] => x
  | x :: y :: xs => x ++ sep ++ pyJoin sep (y :: xs)

/-- Python `s.replace(a, b)` for single-character `a`, `b`. -/
def pyReplaceChar (a b : Char) (s : String) : String :=
  ⟨s.data.map fun c => if c = a then b else c⟩

/-- The single-quote character (written via its code point). -/
def squoteChar : Char := Char.ofNat 39

/-- The double-quote character (written via its code point). -/
def dquoteChar : Char := Char.ofNat 34

/-- Characters considered safe by the `shlex.quote` regex under
`re.ASCII`: ASCII letters, digits, underscore, at-sign, percent, plus,
equals, colon, comma, dot, slash and dash. -/
def shlexSafeChar (c : Char) : Bool :=
  c.isAlpha || c.isDigit || c = '_' || c = '@' || c = '%' || c = '+' ||
    c = '=' || c = ':' || c = ',' || c = '.' || c = '/' || c = '-'

/-- Modelled from the spec: `shlex.quote` is Python standard library code,
not part of this repository.  Embedded from its documented behaviour: the
empty string becomes two single quotes, a string of safe characters is
returned unchanged, and any other string is wrapped in single quotes with
each embedded single quote replaced by the five-character escape. -/
def shlex_quote (s : String) : String :=
  if s = "" then ⟨[squoteChar, squoteChar]⟩
  else if s.data.all shlexSafeChar then s
  else
    ⟨[squoteChar] ++
      (s.data.flatMap fun c =>
        if c = squoteChar then [squoteChar, dquoteChar, squoteChar, dquoteChar, squoteChar]
        else [c]) ++ [squoteChar]⟩

/-- Observable outcome of `utils.run_command`: the line printed for
observability, and the payload handed to `subprocess.run` (a raw token
list on Windows, a single quoted command line elsewhere), or `none` when
no subprocess is started. -/
structure RunOutcome where
  printed : String
  executed : Option (List String ⊕ String)
deriving DecidableEq

/-- The `sys.exit` message of `utils.run_command` when `vsdevcmd` is unset
on Windows. -/
def vsdevcmdMissingMsg : String :=
  ⟨[squoteChar]⟩ ++ "VsDevCmd.bat" ++ ⟨[squoteChar]⟩ ++ " is not set!"

/-- `utils.run_command` (utils.py lines 67-84).  On Windows the dev-shell
init command and an `&&` separator are prepended to the raw token list and
the whole list is printed joined by spaces; elsewhere each token is
shell-escaped and the escaped tokens are joined by spaces.  The subprocess
runs only when `dry_run` is false. -/
def run_command (host : Host) (vsdevcmd : Option String) (command : List String)
    (dry_run : Bool) : Except String RunOutcome :=
  match host with
  | Host.windows =>
    match vsdevcmd with
    | none => Except.error vsdevcmdMissingMsg
    | some v =>
      let command2 := [v, "-arch=amd64", "&&"] ++ command
      Except.ok
        { printed := "Running command: " ++ pyJoin " " command2
          executed := if dry_run then none else some (Sum.inl command2) }
  | _ =>
    let quoted := command.map shlex_quote
    let line := pyJoin " " quoted
    Except.ok
      { printed := "Running command: " ++ line
        executed := if dry_run then none else some (Sum.inr line) }

/-- Python `s.split(sep)` for a single-character separator, on the
character list of the string. -/
def splitOnChar (sep : Char) : List Char → List (List Char)
  | [] => [[]]
  | c :: cs =>
    if c = sep then [] :: splitOnChar sep cs
    else
      match splitOnChar sep cs with
      | [] => [[c]]
      | h :: t => (c :: h) :: t

/-- Number of leading slashes kept by POSIX `normpath`: one in general,
two for the special `//`-prefixed form, zero for relative paths. -/
def initialSlashCount (l : List Char) : Nat :=
  if l.head? = some '/' then
    if l.take 3 = ['/', '/', '/'] then 1
    else if l.take 2 = ['/', '/'] then 2
    else 1
  else 0

/-- One step of the component loop of POSIX `normpath`: drop empty and
`.` components, resolve `..` against the accumulated components. -/
def normpathStep (initialSlashes : Nat) (acc : List (List Char)) (comp : List Char) :
    List (List Char) :=
  if comp = [] ∨ comp = ['.'] then acc
  else if comp ≠ ['.', '.'] ∨ (initialSlashes = 0 ∧ acc = []) ∨
      acc.getLast? = some ['.', '.'] then acc ++ [comp]
  else acc.dropLast

/-- Modelled from the spec: `os.path.normpath` is Python standard library
code, not part of this repository.  Embedded from the POSIX variant:
split on slashes, drop empty and dot components, resolve `..`, rejoin,
and restore the leading slashes. -/
def posix_normpath (path : String) : String :=
  if path = "" then "."
  else
    let initial_slashes := initialSlashCount path.data
    let comps := splitOnChar '/' path.data
    let new_comps := comps.foldl (normpathStep initial_slashes) []
    let joined := pyJoin "/" (new_comps.map fun l => (⟨l⟩ : String))
    ⟨List.replicate initial_slashes '/'⟩ ++
      (if joined = "" ∧ initial_slashes = 0 then "." else joined)

/-- Modelled from the spec: `os.path.join` is Python standard library
code, not part of this repository.  Embedded from the POSIX two-argument
case: an absolute second argument replaces the first, otherwise the two
are joined with a slash unless one is already present. -/
def posix_join (a b : String) : String :=
  if b.data.head? = some '/' then b
  else if a = "" ∨ a.data.getLast? = some '/' then a ++ b
  else a ++ "/" ++ b

/-- Modelled from the spec: `os.path.abspath` is Python standard library
code, not part of this repository.  Embedded from the POSIX variant with
the process working directory made explicit: join relative paths onto the
working directory, then normalize. -/
def posix_abspath (cwd path : String) : String :=
  if path.data.head? = some '/' then posix_normpath path
  else posix_normpath (posix_join cwd path)

/-- `utils.absolute_path` (utils.py lines 47-52): absolutize, then replace
every backslash by a forward slash because CMake is not tolerant to
backslashes in paths. -/
def absolute_path (cwd : String) (path : Option String) : Option String :=
  match path with
  | some p => some (pyReplaceChar '\\' '/' (posix_abspath cwd p))
  | none => none

/-- `build.user_dist_components` (build.py lines 14-18): the common
component list, plus `compiler_rt` on Linux hosts only. -/
def user_dist_components (host : Host) : List String :=
  let components := ["clang", "libclang", "lld", "llvm-cov", "llvm-profdata",
    "llvm-ar", "clang-resource-headers"]
  match host with
  | Host.linux => components ++ ["compiler_rt"]
  | _ => components

/-- `build.bootstrap_flags` (build.py lines 21-34). -/
def bootstrap_flags (host : Host) : List String :=
  match host with
  | Host.darwin =>
    ["-DCOMPILER_RT_BUILD_CRT=OFF",
     "-DCOMPILER_RT_BUILD_LIBFUZZER=OFF",
     "-DCOMPILER_RT_BUILD_SANITIZERS=OFF",
     "-DCOMPILER_RT_BUILD_XRAY=OFF",
     "-DCOMPILER_RT_ENABLE_IOS=OFF",
     "-DCOMPILER_RT_ENABLE_WATCHOS=OFF",
     "-DCOMPILER_RT_ENABLE_TVOS=OFF"]
  | _ => []

/-- `build.dist_flags` (build.py lines 37-58). -/
def dist_flags (host : Host) : List String :=
  let final_distribution_symlinks :=
    ["-DCLANG_LINKS_TO_CREATE=clang++",
     "-DLLD_SYMLINKS_TO_CREATE=ld.lld;wasm-ld"]
  let platform_flags :=
    match host with
    | Host.darwin => ["-DLIBCXX_USE_COMPILER_RT=ON"]
    | _ => []
  final_distribution_symlinks ++ platform_flags

/-- `build.platform_common_flags` (build.py lines 61-76). -/
def platform_common_flags (host : Host) : List String :=
  match host with
  | Host.windows =>
    ["-DLLVM_USE_CRT_RELEASE=MT",
     "-DCMAKE_MSVC_RUNTIME_LIBRARY=MultiThreaded",
     "-DLLVM_ENABLE_DIA_SDK=OFF"]
  | Host.darwin => ["-DLLVM_ENABLE_LIBCXX=ON"]
  | Host.linux => []
  | Host.other => []

/-- `build.default_projects` (build.py lines 79-80). -/
def default_projects : List String :=
  ["clang", "lld", "libcxx", "libcxxabi", "compiler-rt"]

/-- The `LlvmBuildConfig` record (build.py lines 130-139).  Fields that
may be `None` in the Python dictionaries are `Option`s. -/
structure LlvmBuildConfig where
  build_targets : List String
  projects : Option (List String)
  runtimes : Option (List String)
  distribution_components : Option (List String)
  target_backends : Option (List String)
  build_type : String
  cmake_flags : List String
  use_default_cmake_flags : Bool
deriving DecidableEq

/-- `build.bootstrap_build_config` (build.py lines 83-92), as a function
of the host since the preset incorporates host detection. -/
def bootstrap_build_config (host : Host) : LlvmBuildConfig :=
  { build_targets := ["install"]
    projects := some default_projects
    runtimes := none
    distribution_components := none
    target_backends := some ["Native"]
    build_type := "Release"
    cmake_flags := bootstrap_flags host
    use_default_cmake_flags := true }

/-- `build.dev_build_config` (build.py lines 94-103). -/
def dev_build_config (host : Host) : LlvmBuildConfig :=
  { build_targets := ["install-distribution"]
    projects := some default_projects
    runtimes := none
    distribution_components := none
    target_backends := none
    build_type := "Release"
    cmake_flags := dist_flags host
    use_default_cmake_flags := true }

/-- `build.user_build_config` (build.py lines 105-114). -/
def user_build_config (host : Host) : LlvmBuildConfig :=
  { build_targets := ["install-distribution"]
    projects := some default_projects
    runtimes := none
    distribution_components := some (user_dist_components host)
    target_backends := none
    build_type := "Release"
    cmake_flags := dist_flags host
    use_default_cmake_flags := true }

/-- The compiler/linker/archiver override variables of
`build.construct_cmake_flags` (build.py lines 147-148), all initially
`None`. -/
structure BootstrapVars where
  c_compiler : Option String
  cxx_compiler : Option String
  linker : Option String
  ar : Option String
  c_flags : Option (List String)
  cxx_flags : Option (List String)
  linker_flags : Option (List String)
deriving DecidableEq

/-- Assignment of the override variables (build.py lines 156-176): per
host when a bootstrap path is given, with backslash normalization on
Windows, and no linker override on macOS. -/
def bootstrap_vars (host : Host) (isysroot : String) (bootstrap_llvm_path : Option String) :
    BootstrapVars :=
  match bootstrap_llvm_path with
  | none => ⟨none, none, none, none, none, none, none⟩
  | some p =>
    match host with
    | Host.windows =>
      { c_compiler := some (pyReplaceChar '\\' '/' (p ++ "/bin/clang-cl.exe"))
        cxx_compiler := some (pyReplaceChar '\\' '/' (p ++ "/bin/clang-cl.exe"))
        linker := some (pyReplaceChar '\\' '/' (p ++ "/bin/lld-link.exe"))
        ar := some (pyReplaceChar '\\' '/' (p ++ "/bin/llvm-lib.exe"))
        c_flags := none
        cxx_flags := none
        linker_flags := none }
    | Host.linux =>
      { c_compiler := some (p ++ "/bin/clang")
        cxx_compiler := some (p ++ "/bin/clang++")
        linker := some (p ++ "/bin/ld.lld")
        ar := some (p ++ "/bin/llvm-ar")
        c_flags := none
        cxx_flags := none
        linker_flags := none }
    | Host.darwin =>
      { c_compiler := some (p ++ "/bin/clang")
        cxx_compiler := some (p ++ "/bin/clang++")
        linker := none
        ar := some (p ++ "/bin/llvm-ar")
        c_flags := some ["-isysroot", isysroot]
        cxx_flags := some ["-isysroot", isysroot, "-stdlib=libc++"]
        linker_flags := some ["-stdlib=libc++"] }
    | Host.other => ⟨none, none, none, none, none, none, none⟩

/-- The flag key for distribution components. -/
def distributionKey : String := "-DLLVM_DISTRIBUTION_COMPONENTS="

/-- The flag key for the linker override. -/
def linkerKey : String := "-DCMAKE_LINKER="

/-- Whether flag string `s` carries key `key` (the key string is a prefix
of `s`). -/
def hasKeyPfx (key s : String) : Bool :=
  key.data.isPrefixOf s.data

/-- A conditional single flag: `if v is not None: append(key + v)`. -/
def optFlag (key : String) : Option String → List String
  | some v => [key ++ v]
  | none => []

/-- A conditional semicolon-joined list flag:
`if xs is not None: append(key + ";".join(xs))`. -/
def listFlag (key : String) (o : Option (List String)) : List String :=
  optFlag key (o.map (pyJoin ";"))

/-- The distribution-components flag (build.py lines 184-185); the guard
is Python truthiness, so a present-but-empty list emits nothing. -/
def distComponentsFlag (o : Option (List String)) : List String :=
  match o with
  | some l =>
    if l = [] then []
    else [distributionKey ++ pyJoin ";" l]
  | none => []

/-- `build.construct_cmake_flags` (build.py lines 142-204), with the
appends in source order. -/
def construct_cmake_flags (host : Host) (isysroot : String)
    (bootstrap_llvm_path : Option String) (install_path : Option String)
    (config : LlvmBuildConfig) : List String :=
  let v := bootstrap_vars host isysroot bootstrap_llvm_path
  ["-DCMAKE_BUILD_TYPE=" ++ config.build_type]
    ++ (if config.use_default_cmake_flags then platform_common_flags host else [])
    ++ (if config.cmake_flags ≠ [] then config.cmake_flags else [])
    ++ listFlag "-DLLVM_TARGETS_TO_BUILD=" config.target_backends
    ++ listFlag "-DLLVM_ENABLE_PROJECTS=" config.projects
    ++ listFlag "-DLLVM_ENABLE_RUNTIMES=" config.runtimes
    ++ distComponentsFlag config.distribution_components
    ++ optFlag "-DCMAKE_INSTALL_PREFIX=" install_path
    ++ optFlag "-DCMAKE_C_COMPILER=" v.c_compiler
    ++ optFlag "-DCMAKE_CXX_COMPILER=" v.cxx_compiler
    ++ optFlag "-DCMAKE_LINKER=" v.linker
    ++ optFlag "-DCMAKE_AR=" v.ar
    ++ optFlag "-DCMAKE_C_FLAGS=" (v.c_flags.map (pyJoin " "))
    ++ optFlag "-DCMAKE_CXX_FLAGS=" (v.cxx_flags.map (pyJoin " "))
    ++ optFlag "-DCMAKE_EXE_LINKER_FLAGS=" (v.linker_flags.map (pyJoin " "))
    ++ optFlag "-DCMAKE_MODULE_LINKER_FLAGS=" (v.linker_flags.map (pyJoin " "))
    ++ optFlag "-DCMAKE_SHARED_LINKER_FLAGS=" (v.linker_flags.map (pyJoin " "))

/-- `build.prepare_config` (build.py lines 240-254): named presets,
fatal error on a missing selector, otherwise delegate to the JSON loader
(made explicit as `load`). -/
def prepare_config (host : Host) (config_param : Option String)
    (load : String → Except String LlvmBuildConfig) : Except String LlvmBuildConfig :=
  if config_param = some "predefined/bootstrap" then
    Except.ok (bootstrap_build_config host)
  else if config_param = some "predefined/dev" then
    Except.ok (dev_build_config host)
  else if config_param = some "predefined/user" then
    Except.ok (user_build_config host)
  else
    match config_param with
    | none => Except.error "Error: build config is not selected"
    | some path => load path

/-- The build-type flag, first append of `construct_cmake_flags`
(build.py line 150). -/
def buildTypeSegment (config : LlvmBuildConfig) : List String :=
  ["-DCMAKE_BUILD_TYPE=" ++ config.build_type]

/-- The platform-default flags segment (build.py lines 151-152). -/
def defaultFlagsSegment (host : Host) (config : LlvmBuildConfig) : List String :=
  if config.use_default_cmake_flags then platform_common_flags host else []

/-- The user-supplied flags segment (build.py lines 153-154). -/
def userFlagsSegment (config : LlvmBuildConfig) : List String :=
  if config.cmake_flags ≠ [] then config.cmake_flags else []

/-- The list-valued backend/project/runtime/component flags segment
(build.py lines 178-185). -/
def listValuedSegment (config : LlvmBuildConfig) : List String :=
  listFlag "-DLLVM_TARGETS_TO_BUILD=" config.target_backends
    ++ listFlag "-DLLVM_ENABLE_PROJECTS=" config.projects
    ++ listFlag "-DLLVM_ENABLE_RUNTIMES=" config.runtimes
    ++ distComponentsFlag config.distribution_components

/-- The install-prefix flag segment (build.py lines 186-187). -/
def installSegment (install_path : Option String) : List String :=
  optFlag "-DCMAKE_INSTALL_PREFIX=" install_path

/-- The bootstrap compiler-override flags segment (build.py lines
188-203). -/
def bootstrapOverrideSegment (host : Host) (isysroot : String)
    (bootstrap_llvm_path : Option String) : List String :=
  let v := bootstrap_vars host isysroot bootstrap_llvm_path
  optFlag "-DCMAKE_C_COMPILER=" v.c_compiler
    ++ optFlag "-DCMAKE_CXX_COMPILER=" v.cxx_compiler
    ++ optFlag "-DCMAKE_LINKER=" v.linker
    ++ optFlag "-DCMAKE_AR=" v.ar
    ++ optFlag "-DCMAKE_C_FLAGS=" (v.c_flags.map (pyJoin " "))
    ++ optFlag "-DCMAKE_CXX_FLAGS=" (v.cxx_flags.map (pyJoin " "))
    ++ optFlag "-DCMAKE_EXE_LINKER_FLAGS=" (v.linker_flags.map (pyJoin " "))
    ++ optFlag "-DCMAKE_MODULE_LINKER_FLAGS=" (v.linker_flags.map (pyJoin " "))
    ++ optFlag "-DCMAKE_SHARED_LINKER_FLAGS=" (v.linker_flags.map (pyJoin " "))

/-- The flag order asserted by the specification (claim C1): bootstrap
compiler overrides before the list-valued flags and the install prefix.
This definition follows the spec wording, to be compared with
`construct_cmake_flags`. -/
def spec_claimed_flag_order (host : Host) (isysroot : String)
    (bootstrap_llvm_path : Option String) (install_path : Option String)
    (config : LlvmBuildConfig) : List String :=
  buildTypeSegment config
    ++ defaultFlagsSegment host config
    ++ userFlagsSegment config
    ++ bootstrapOverrideSegment host isysroot bootstrap_llvm_path
    ++ listValuedSegment config
    ++ installSegment install_path

/-- All flag keys `construct_cmake_flags` can generate. -/
def allFlagKeyList : List String :=
  ["-DCMAKE_BUILD_TYPE=", "-DLLVM_TARGETS_TO_BUILD=", "-DLLVM_ENABLE_PROJECTS=",
   "-DLLVM_ENABLE_RUNTIMES=", "-DLLVM_DISTRIBUTION_COMPONENTS=",
   "-DCMAKE_INSTALL_PREFIX=", "-DCMAKE_C_COMPILER=", "-DCMAKE_CXX_COMPILER=",
   "-DCMAKE_LINKER=", "-DCMAKE_AR=", "-DCMAKE_C_FLAGS=", "-DCMAKE_CXX_FLAGS=",
   "-DCMAKE_EXE_LINKER_FLAGS=", "-DCMAKE_MODULE_LINKER_FLAGS=",
   "-DCMAKE_SHARED_LINKER_FLAGS="]

/-- Concrete configuration for the C1 counterexample. -/
def c1Config : LlvmBuildConfig :=
  { build_targets := ["install"]
    projects := some ["clang"]
    runtimes := none
    distribution_components := none
    target_backends := none
    build_type := "Release"
    cmake_flags := []
    use_default_cmake_flags := false }

/-- Concrete configuration for the C2 counterexample: no distribution
components, but a user-supplied flag carrying the same key. -/
def c2Config : LlvmBuildConfig :=
  { build_targets := []
    projects := none
    runtimes := none
    distribution_components := none
    target_backends := none
    build_type := "Release"
    cmake_flags := ["-DLLVM_DISTRIBUTION_COMPONENTS=clang"]
    use_default_cmake_flags := false }

/-- Concrete configuration for the C4 witness. -/
def c4Config : LlvmBuildConfig :=
  { build_targets := ["install"]
    projects := some default_projects
    runtimes := none
    distribution_components := none
    target_backends := none
    build_type := "Release"
    cmake_flags := []
    use_default_cmake_flags := false }

/-- Concrete configuration for the C10 witness: every list-valued field
present but empty. -/
def c10Config : LlvmBuildConfig :=
  { build_targets := []
    projects := some []
    runtimes := some []
    distribution_components := some []
    target_backends := some []
    build_type := "Release"
    cmake_flags := []
    use_default_cmake_flags := false }

/-- A list is a Boolean prefix of itself extended by anything. -/
theorem selfPfx_append (a x : List Char) : a.isPrefixOf (a ++ x) = true := by
  induction a with
  | nil => simp [List.isPrefixOf]
  | cons c cs ih => simp [List.isPrefixOf, ih]

/-- Two incomparable lists stay incomparable when the second is extended:
if neither of `a`, `k` is a prefix of the other, then `a` is not a prefix
of `k ++ x`. -/
theorem notPfx_append (a : List Char) :
    ∀ k : List Char, (a.isPrefixOf k || k.isPrefixOf a) = false →
      ∀ x, a.isPrefixOf (k ++ x) = false := by
  induction a with
  | nil => intro k h x; simp [List.isPrefixOf] at h
  | cons c cs ih =>
    intro k h x
    cases k with
    | nil => simp [List.isPrefixOf] at h
    | cons d ds =>
      simp only [List.isPrefixOf, Bool.or_eq_false_iff, Bool.and_eq_false_iff] at h
      simp only [List.cons_append, List.isPrefixOf, Bool.and_eq_false_iff]
      rcases h with ⟨h1, h2⟩
      by_cases hcd : c = d
      · subst hcd
        rcases h1 with h1 | h1
        · simp at h1
        · rcases h2 with h2 | h2
          · simp at h2
          · exact Or.inr (ih ds (by simp [h1, h2]) x)
      · exact Or.inl (by simp [hcd])

/-- `construct_cmake_flags` decomposes into its six flag groups, in the
order the code appends them. -/
theorem construct_cmake_flags_decomposition (host : Host) (isysroot : String)
    (b i : Option String) (config : LlvmBuildConfig) :
    construct_cmake_flags host isysroot b i config =
      buildTypeSegment config ++ defaultFlagsSegment host config
        ++ userFlagsSegment config ++ listValuedSegment config
        ++ installSegment i ++ bootstrapOverrideSegment host isysroot b := by
  simp [construct_cmake_flags, buildTypeSegment, defaultFlagsSegment, userFlagsSegment,
    listValuedSegment, installSegment, bootstrapOverrideSegment, List.append_assoc]

/-- C1 (amended): for every BuildConfig, bootstrap path and install path,
the flag list of `construct_cmake_flags` is the build-type flag, then the
platform-default flags, then the user-supplied cmake_flags, then the
list-valued project/runtime/backend/component flags, then the
install-prefix flag, and the bootstrap-compiler-override flags come last. -/
theorem C1_construct_flag_order (host : Host) (isysroot : String)
    (b i : Option String) (config : LlvmBuildConfig) :
    construct_cmake_flags host isysroot b i config =
      buildTypeSegment config ++ defaultFlagsSegment host config
        ++ userFlagsSegment config ++ listValuedSegment config
        ++ installSegment i ++ bootstrapOverrideSegment host isysroot b :=
  construct_cmake_flags_decomposition host isysroot b i config

/-- C1 is false as stated: on a Linux host with a bootstrap path and an
install path, the install-prefix flag is emitted before the
bootstrap-compiler-override flags, so the output differs from the order
the spec claims. -/
theorem C1_counterexample :
    construct_cmake_flags Host.linux "" (some "/b") (some "/i") c1Config ≠
        spec_claimed_flag_order Host.linux "" (some "/b") (some "/i") c1Config ∧
      construct_cmake_flags Host.linux "" (some "/b") (some "/i") c1Config =
        ["-DCMAKE_BUILD_TYPE=Release", "-DLLVM_ENABLE_PROJECTS=clang",
         "-DCMAKE_INSTALL_PREFIX=/i", "-DCMAKE_C_COMPILER=/b/bin/clang",
         "-DCMAKE_CXX_COMPILER=/b/bin/clang++", "-DCMAKE_LINKER=/b/bin/ld.lld",
         "-DCMAKE_AR=/b/bin/llvm-ar"] := by
  constructor
  · decide
  · decide

/-- C9: when no configuration selector is given, `prepare_config` fails
with the fatal error that no build config is selected, for every host and
every loader, and returns no configuration. -/
theorem C9_no_config_selected (host : Host)
    (load : String → Except String LlvmBuildConfig) :
    prepare_config host none load = Except.error "Error: build config is not selected" := rfl

/-- C5: resolving `predefined/user` on a Linux host yields a BuildConfig
whose distribution components are those of the macOS preset plus the extra
Linux-only `compiler_rt`, which is absent from the macOS list. -/
theorem C5_user_preset_linux_extra_component
    (loadL loadD : String → Except String LlvmBuildConfig) :
    ∃ cL cD,
      prepare_config Host.linux (some "predefined/user") loadL = Except.ok cL ∧
      prepare_config Host.darwin (some "predefined/user") loadD = Except.ok cD ∧
      ∃ dL dD,
        cL.distribution_components = some dL ∧
        cD.distribution_components = some dD ∧
        "compiler_rt" ∈ dL ∧ "compiler_rt" ∉ dD ∧ dL = dD ++ ["compiler_rt"] := by
  refine ⟨user_build_config Host.linux, user_build_config Host.darwin, ?_, ?_,
    user_dist_components Host.linux, user_dist_components Host.darwin,
    rfl, rfl, ?_, ?_, ?_⟩
  · rfl
  · rfl
  · decide
  · decide
  · decide

/-- C6: the printed command line of `run_command` is built, on Windows,
by prepending the dev-shell init command and an `&&` separator to the raw
token list and joining with spaces without per-token escaping, and on
every other host by shell-escaping each token individually and joining
the escaped tokens with single spaces. -/
theorem C6_command_line_construction (host : Host) (vsdevcmd : Option String)
    (command : List String) (dry_run : Bool) (r : RunOutcome)
    (h : run_command host vsdevcmd command dry_run = Except.ok r) :
    r.printed = "Running command: " ++
      (if host = Host.windows then
        pyJoin " " ([vsdevcmd.getD "", "-arch=amd64", "&&"] ++ command)
      else pyJoin " " (command.map shlex_quote)) := by
  cases host with
  | windows =>
    cases vsdevcmd with
    | none => simp [run_command] at h
    | some v =>
      simp only [run_command] at h
      injection h with h2
      subst h2
      simp
  | linux =>
    simp only [run_command] at h
    injection h with h2
    subst h2
    simp
  | darwin =>
    simp only [run_command] at h
    injection h with h2
    subst h2
    simp
  | other =>
    simp only [run_command] at h
    injection h with h2
    subst h2
    simp

/-- C6 witness: a concrete Windows invocation. -/
theorem C6_witness :
    (RunOutcome.mk "Running command: C:/vs.bat -arch=amd64 && cmake --build" none).printed =
      "Running command: " ++
        (if Host.windows = Host.windows then
          pyJoin " " ([(some "C:/vs.bat").getD "", "-arch=amd64", "&&"] ++ ["cmake", "--build"])
        else pyJoin " " (["cmake", "--build"].map shlex_quote)) :=
  C6_command_line_construction Host.windows (some "C:/vs.bat") ["cmake", "--build"] true
    (RunOutcome.mk "Running command: C:/vs.bat -arch=amd64 && cmake --build" none) rfl

/-- C7: with `dry_run` true, `run_command` starts no subprocess (the
executed payload is `none`) and still emits the printed command line. -/
theorem C7_dry_run_no_subprocess (host : Host) (vsdevcmd : Option String)
    (command : List String) (r : RunOutcome)
    (h : run_command host vsdevcmd command true = Except.ok r) :
    r.executed = none ∧ ∃ line, r.printed = "Running command: " ++ line := by
  cases host with
  | windows =>
    cases vsdevcmd with
    | none => simp [run_command] at h
    | some v =>
      simp only [run_command] at h
      injection h with h2
      subst h2
      exact ⟨rfl, _, rfl⟩
  | linux =>
    simp only [run_command] at h
    injection h with h2
    subst h2
    exact ⟨rfl, _, rfl⟩
  | darwin =>
    simp only [run_command] at h
    injection h with h2
    subst h2
    exact ⟨rfl, _, rfl⟩
  | other =>
    simp only [run_command] at h
    injection h with h2
    subst h2
    exact ⟨rfl, _, rfl⟩

/-- C7 witness: a concrete dry run on Linux. -/
theorem C7_witness :
    (RunOutcome.mk "Running command: ninja" none).executed = none ∧
      ∃ line, (RunOutcome.mk "Running command: ninja" none).printed =
        "Running command: " ++ line :=
  C7_dry_run_no_subprocess Host.linux none ["ninja"]
    (RunOutcome.mk "Running command: ninja" none) rfl

/-- A flag built from a key that is incomparable with `key` does not
carry `key`. -/
theorem hasKeyPfx_keyAppend_false (key k : String)
    (h : (key.data.isPrefixOf k.data || k.data.isPrefixOf key.data) = false)
    (v : String) : hasKeyPfx key (k ++ v) = false := by
  unfold hasKeyPfx
  rw [String.data_append]
  exact notPfx_append key.data k.data h v.data

/-- A flag built from `key` itself carries `key`. -/
theorem hasKeyPfx_self_append (key v : String) : hasKeyPfx key (key ++ v) = true := by
  unfold hasKeyPfx
  rw [String.data_append]
  exact selfPfx_append key.data v.data

/-- An `optFlag` on an incomparable key contributes no `key`-carrying
flag. -/
theorem countP_optFlag_zero (key k : String)
    (h : (key.data.isPrefixOf k.data || k.data.isPrefixOf key.data) = false)
    (o : Option String) : (optFlag k o).countP (hasKeyPfx key) = 0 := by
  cases o with
  | none => rfl
  | some v =>
    simp [optFlag, List.countP_cons, List.countP_nil, hasKeyPfx_keyAppend_false key k h v]

/-- A `listFlag` on an incomparable key contributes no `key`-carrying
flag. -/
theorem countP_listFlag_zero (key k : String)
    (h : (key.data.isPrefixOf k.data || k.data.isPrefixOf key.data) = false)
    (o : Option (List String)) : (listFlag k o).countP (hasKeyPfx key) = 0 := by
  cases o with
  | none => rfl
  | some l =>
    simp [listFlag, optFlag, List.countP_cons, List.countP_nil,
      hasKeyPfx_keyAppend_false key k h (pyJoin ";" l)]

/-- The user-flags segment contributes no `p`-satisfying flag when no
user flag satisfies `p`. -/
theorem countP_userFlagsSegment_zero (p : String → Bool) (config : LlvmBuildConfig)
    (hp : ∀ s ∈ config.cmake_flags, p s = false) :
    (userFlagsSegment config).countP p = 0 := by
  unfold userFlagsSegment
  by_cases hc : config.cmake_flags = []
  · simp [hc]
  · simp only [ne_eq, hc, not_false_eq_true, if_pos]
    exact List.countP_eq_zero.mpr (fun a ha => by simp [hp a ha])

/-- The build-type flag never carries the distribution-components key. -/
theorem countP_buildTypeSegment_distKey (config : LlvmBuildConfig) :
    (buildTypeSegment config).countP (hasKeyPfx distributionKey) = 0 := by
  simp [buildTypeSegment, List.countP_cons, List.countP_nil,
    hasKeyPfx_keyAppend_false distributionKey "-DCMAKE_BUILD_TYPE=" (by decide)
      config.build_type]

/-- The platform-default flags never carry the distribution-components
key. -/
theorem countP_defaultFlagsSegment_distKey (host : Host) (config : LlvmBuildConfig) :
    (defaultFlagsSegment host config).countP (hasKeyPfx distributionKey) = 0 := by
  unfold defaultFlagsSegment
  cases hu : config.use_default_cmake_flags
  · simp [hu]
  · simp only [hu, if_pos]
    cases host <;> decide

/-- The bootstrap-override segment never carries the
distribution-components key. -/
theorem countP_bootstrapSegment_distKey (host : Host) (isysroot : String)
    (b : Option String) :
    (bootstrapOverrideSegment host isysroot b).countP (hasKeyPfx distributionKey) = 0 := by
  unfold bootstrapOverrideSegment
  simp only [List.countP_append,
    countP_optFlag_zero distributionKey "-DCMAKE_C_COMPILER=" (by decide),
    countP_optFlag_zero distributionKey "-DCMAKE_CXX_COMPILER=" (by decide),
    countP_optFlag_zero distributionKey "-DCMAKE_LINKER=" (by decide),
    countP_optFlag_zero distributionKey "-DCMAKE_AR=" (by decide),
    countP_optFlag_zero distributionKey "-DCMAKE_C_FLAGS=" (by decide),
    countP_optFlag_zero distributionKey "-DCMAKE_CXX_FLAGS=" (by decide),
    countP_optFlag_zero distributionKey "-DCMAKE_EXE_LINKER_FLAGS=" (by decide),
    countP_optFlag_zero distributionKey "-DCMAKE_MODULE_LINKER_FLAGS=" (by decide),
    countP_optFlag_zero distributionKey "-DCMAKE_SHARED_LINKER_FLAGS=" (by decide)]

/-- The install-prefix segment never carries the distribution-components
key. -/
theorem countP_installSegment_distKey (i : Option String) :
    (installSegment i).countP (hasKeyPfx distributionKey) = 0 :=
  countP_optFlag_zero distributionKey "-DCMAKE_INSTALL_PREFIX=" (by decide) i

/-- The backend/project/runtime flags never carry the
distribution-components key; the whole list-valued segment carries it
exactly as often as the distribution-components flag does. -/
theorem countP_listValuedSegment_distKey (config : LlvmBuildConfig) :
    (listValuedSegment config).countP (hasKeyPfx distributionKey) =
      (distComponentsFlag config.distribution_components).countP (hasKeyPfx distributionKey) := by
  unfold listValuedSegment
  simp only [List.countP_append,
    countP_listFlag_zero distributionKey "-DLLVM_TARGETS_TO_BUILD=" (by decide),
    countP_listFlag_zero distributionKey "-DLLVM_ENABLE_PROJECTS=" (by decide),
    countP_listFlag_zero distributionKey "-DLLVM_ENABLE_RUNTIMES=" (by decide)]
  omega

/-- C2 (amended): for every BuildConfig whose own `cmake_flags` carry no
distribution-components flag, an absent `distribution_components` field
yields no such flag in the output, and a present non-empty list yields
exactly one, whose value is the semicolon-joined list in order. -/
theorem C2_distribution_components_flag (host : Host) (isysroot : String)
    (b i : Option String) (config : LlvmBuildConfig)
    (hcf : ∀ s ∈ config.cmake_flags, hasKeyPfx distributionKey s = false) :
    (config.distribution_components = none →
      (construct_cmake_flags host isysroot b i config).countP (hasKeyPfx distributionKey) = 0) ∧
    (∀ l, config.distribution_components = some l → l ≠ [] →
      (construct_cmake_flags host isysroot b i config).countP (hasKeyPfx distributionKey) = 1 ∧
      (distributionKey ++ pyJoin ";" l) ∈ construct_cmake_flags host isysroot b i config) := by
  constructor
  · intro hd
    rw [construct_cmake_flags_decomposition]
    simp only [List.countP_append, countP_buildTypeSegment_distKey,
      countP_defaultFlagsSegment_distKey, countP_userFlagsSegment_zero _ config hcf,
      countP_listValuedSegment_distKey, countP_installSegment_distKey,
      countP_bootstrapSegment_distKey, hd]
    rfl
  · intro l hd hne
    constructor
    · rw [construct_cmake_flags_decomposition]
      simp only [List.countP_append, countP_buildTypeSegment_distKey,
        countP_defaultFlagsSegment_distKey, countP_userFlagsSegment_zero _ config hcf,
        countP_listValuedSegment_distKey, countP_installSegment_distKey,
        countP_bootstrapSegment_distKey, hd]
      simp [distComponentsFlag, hne, List.countP_cons, List.countP_nil,
        hasKeyPfx_self_append distributionKey (pyJoin ";" l)]
    · rw [construct_cmake_flags_decomposition]
      simp [listValuedSegment, distComponentsFlag, hd, hne, List.mem_append]

/-- C2 is false as stated: when the distribution-components field is
absent but a user-supplied cmake flag carries the same key, the output
does contain a distribution-components flag. -/
theorem C2_counterexample :
    c2Config.distribution_components = none ∧
      "-DLLVM_DISTRIBUTION_COMPONENTS=clang" ∈
        construct_cmake_flags Host.linux "" none none c2Config := by
  constructor
  · rfl
  · decide

/-- C2 witness: the user preset on Linux emits exactly one
distribution-components flag with the semicolon-joined component list. -/
theorem C2_witness :
    (construct_cmake_flags Host.linux "" none none
        (user_build_config Host.linux)).countP (hasKeyPfx distributionKey) = 1 ∧
      (distributionKey ++ pyJoin ";" (user_dist_components Host.linux)) ∈
        construct_cmake_flags Host.linux "" none none (user_build_config Host.linux) :=
  (C2_distribution_components_flag Host.linux "" none none
      (user_build_config Host.linux) (by decide)).2
    (user_dist_components Host.linux) rfl (by decide)

/-- The distribution-components flag on an incomparable key contributes
no `key`-carrying flag. -/
theorem countP_distFlag_zero (key : String)
    (h : (key.data.isPrefixOf distributionKey.data ||
      distributionKey.data.isPrefixOf key.data) = false)
    (o : Option (List String)) :
    (distComponentsFlag o).countP (hasKeyPfx key) = 0 := by
  cases o with
  | none => rfl
  | some l =>
    by_cases hl : l = []
    · simp [distComponentsFlag, hl]
    · simp [distComponentsFlag, hl, List.countP_cons, List.countP_nil,
        hasKeyPfx_keyAppend_false key distributionKey h (pyJoin ";" l)]

/-- C3: on a macOS host with bootstrap path `/opt/llvm10`, for any config
whose own cmake flags carry no linker-override key, the flag list
contains the C-compiler flag `/opt/llvm10/bin/clang`, contains no
CMAKE_LINKER override flag, and contains a C-flags entry of `-isysroot`
followed by the resolved SDK root. -/
theorem C3_darwin_bootstrap_overrides (isysroot : String) (i : Option String)
    (config : LlvmBuildConfig)
    (hcf : ∀ s ∈ config.cmake_flags, hasKeyPfx linkerKey s = false) :
    "-DCMAKE_C_COMPILER=/opt/llvm10/bin/clang" ∈
        construct_cmake_flags Host.darwin isysroot (some "/opt/llvm10") i config ∧
      (construct_cmake_flags Host.darwin isysroot (some "/opt/llvm10") i config).countP
        (hasKeyPfx linkerKey) = 0 ∧
      ("-DCMAKE_C_FLAGS=-isysroot " ++ isysroot) ∈
        construct_cmake_flags Host.darwin isysroot (some "/opt/llvm10") i config := by
  have hcc : ("-DCMAKE_C_COMPILER=" ++ "/opt/llvm10/bin/clang" : String) =
      "-DCMAKE_C_COMPILER=/opt/llvm10/bin/clang" := rfl
  have hflags : ("-DCMAKE_C_FLAGS=" ++ pyJoin " " ["-isysroot", isysroot] : String) =
      "-DCMAKE_C_FLAGS=-isysroot " ++ isysroot := by
    show ("-DCMAKE_C_FLAGS=" ++ ("-isysroot" ++ " " ++ isysroot) : String) = _
    rw [← String.append_assoc]
    rfl
  refine ⟨?_, ?_, ?_⟩
  · rw [construct_cmake_flags_decomposition]
    simp [bootstrapOverrideSegment, bootstrap_vars, optFlag, List.mem_append, hcc]
  · rw [construct_cmake_flags_decomposition]
    simp only [List.countP_append]
    have h1 : (buildTypeSegment config).countP (hasKeyPfx linkerKey) = 0 := by
      simp [buildTypeSegment, List.countP_cons, List.countP_nil,
        hasKeyPfx_keyAppend_false linkerKey "-DCMAKE_BUILD_TYPE=" (by decide)
          config.build_type]
    have h2 : (defaultFlagsSegment Host.darwin config).countP (hasKeyPfx linkerKey) = 0 := by
      unfold defaultFlagsSegment
      cases hu : config.use_default_cmake_flags
      · simp [hu]
      · simp only [hu, if_pos]
        decide
    have h3 := countP_userFlagsSegment_zero (hasKeyPfx linkerKey) config hcf
    have h4 : (listValuedSegment config).countP (hasKeyPfx linkerKey) = 0 := by
      unfold listValuedSegment
      simp only [List.countP_append,
        countP_listFlag_zero linkerKey "-DLLVM_TARGETS_TO_BUILD=" (by decide),
        countP_listFlag_zero linkerKey "-DLLVM_ENABLE_PROJECTS=" (by decide),
        countP_listFlag_zero linkerKey "-DLLVM_ENABLE_RUNTIMES=" (by decide),
        countP_distFlag_zero linkerKey (by decide)]
    have h5 : (installSegment i).countP (hasKeyPfx linkerKey) = 0 :=
      countP_optFlag_zero linkerKey "-DCMAKE_INSTALL_PREFIX=" (by decide) i
    have h6 : (bootstrapOverrideSegment Host.darwin isysroot
        (some "/opt/llvm10")).countP (hasKeyPfx linkerKey) = 0 := by
      simp [bootstrapOverrideSegment, bootstrap_vars, optFlag,
        List.countP_append, List.countP_cons, List.countP_nil,
        hasKeyPfx_keyAppend_false linkerKey "-DCMAKE_C_COMPILER=" (by decide),
        hasKeyPfx_keyAppend_false linkerKey "-DCMAKE_CXX_COMPILER=" (by decide),
        hasKeyPfx_keyAppend_false linkerKey "-DCMAKE_AR=" (by decide),
        hasKeyPfx_keyAppend_false linkerKey "-DCMAKE_C_FLAGS=" (by decide),
        hasKeyPfx_keyAppend_false linkerKey "-DCMAKE_CXX_FLAGS=" (by decide),
        hasKeyPfx_keyAppend_false linkerKey "-DCMAKE_EXE_LINKER_FLAGS=" (by decide),
        hasKeyPfx_keyAppend_false linkerKey "-DCMAKE_MODULE_LINKER_FLAGS=" (by decide),
        hasKeyPfx_keyAppend_false linkerKey "-DCMAKE_SHARED_LINKER_FLAGS=" (by decide)]
      decide
    simp [h1, h2, h3, h4, h5, h6]
  · rw [construct_cmake_flags_decomposition]
    simp [bootstrapOverrideSegment, bootstrap_vars, optFlag, List.mem_append, hflags]

/-- C3 witness: the user preset on macOS with SDK root `/sdk`. -/
theorem C3_witness :
    "-DCMAKE_C_COMPILER=/opt/llvm10/bin/clang" ∈
        construct_cmake_flags Host.darwin "/sdk" (some "/opt/llvm10") none
          (user_build_config Host.darwin) ∧
      (construct_cmake_flags Host.darwin "/sdk" (some "/opt/llvm10") none
          (user_build_config Host.darwin)).countP (hasKeyPfx linkerKey) = 0 ∧
      ("-DCMAKE_C_FLAGS=-isysroot " ++ "/sdk") ∈
        construct_cmake_flags Host.darwin "/sdk" (some "/opt/llvm10") none
          (user_build_config Host.darwin) :=
  C3_darwin_bootstrap_overrides "/sdk" none (user_build_config Host.darwin) (by decide)

/-- `optFlag` never contains a string its key is not a prefix of. -/
theorem not_mem_optFlag (f k : String) (h : k.data.isPrefixOf f.data = false)
    (o : Option String) : f ∉ optFlag k o := by
  cases o with
  | none => simp [optFlag]
  | some v =>
    simp only [optFlag, List.mem_singleton]
    intro he
    subst he
    rw [String.data_append, selfPfx_append] at h
    exact Bool.noConfusion h

/-- `listFlag` never contains a string its key is not a prefix of. -/
theorem not_mem_listFlag (f k : String) (h : k.data.isPrefixOf f.data = false)
    (o : Option (List String)) : f ∉ listFlag k o :=
  not_mem_optFlag f k h _

/-- The distribution-components flag never contains a string its key is
not a prefix of. -/
theorem not_mem_distFlag (f : String)
    (h : distributionKey.data.isPrefixOf f.data = false)
    (o : Option (List String)) : f ∉ distComponentsFlag o := by
  cases o with
  | none => simp [distComponentsFlag]
  | some l =>
    by_cases hl : l = []
    · simp [distComponentsFlag, hl]
    · simp only [distComponentsFlag]
      rw [if_neg hl]
      simp only [List.mem_singleton]
      intro he
      subst he
      rw [String.data_append, selfPfx_append] at h
      exact Bool.noConfusion h

/-- With the platform defaults disabled, a string that is not among the
user flags and carries none of the generated flag keys is absent from the
output of `construct_cmake_flags`. -/
theorem not_mem_construct_cmake_flags (host : Host) (isysroot : String)
    (b i : Option String) (config : LlvmBuildConfig) (f : String)
    (hud : config.use_default_cmake_flags = false)
    (hcf : f ∉ config.cmake_flags)
    (hk : ∀ k ∈ allFlagKeyList, k.data.isPrefixOf f.data = false) :
    f ∉ construct_cmake_flags host isysroot b i config := by
  intro hmem
  rw [construct_cmake_flags_decomposition] at hmem
  simp only [List.mem_append] at hmem
  rcases hmem with ((((h1 | h2) | h3) | h4) | h5) | h6
  · simp only [buildTypeSegment, List.mem_singleton] at h1
    subst h1
    have h := hk "-DCMAKE_BUILD_TYPE=" (by decide)
    rw [String.data_append, selfPfx_append] at h
    exact Bool.noConfusion h
  · simp [defaultFlagsSegment, hud] at h2
  · by_cases hc : config.cmake_flags = []
    · simp [userFlagsSegment, hc] at h3
    · simp only [userFlagsSegment, ne_eq, hc, not_false_eq_true, if_pos] at h3
      exact hcf h3
  · simp only [listValuedSegment, List.mem_append] at h4
    rcases h4 with ((h4 | h4) | h4) | h4
    · exact not_mem_listFlag f _ (hk "-DLLVM_TARGETS_TO_BUILD=" (by decide)) _ h4
    · exact not_mem_listFlag f _ (hk "-DLLVM_ENABLE_PROJECTS=" (by decide)) _ h4
    · exact not_mem_listFlag f _ (hk "-DLLVM_ENABLE_RUNTIMES=" (by decide)) _ h4
    · exact not_mem_distFlag f (hk "-DLLVM_DISTRIBUTION_COMPONENTS=" (by decide)) _ h4
  · exact not_mem_optFlag f _ (hk "-DCMAKE_INSTALL_PREFIX=" (by decide)) _ h5
  · simp only [bootstrapOverrideSegment, List.mem_append] at h6
    rcases h6 with ((((((((h6 | h6) | h6) | h6) | h6) | h6) | h6) | h6) | h6)
    · exact not_mem_optFlag f _ (hk "-DCMAKE_C_COMPILER=" (by decide)) _ h6
    · exact not_mem_optFlag f _ (hk "-DCMAKE_CXX_COMPILER=" (by decide)) _ h6
    · exact not_mem_optFlag f _ (hk "-DCMAKE_LINKER=" (by decide)) _ h6
    · exact not_mem_optFlag f _ (hk "-DCMAKE_AR=" (by decide)) _ h6
    · exact not_mem_optFlag f _ (hk "-DCMAKE_C_FLAGS=" (by decide)) _ h6
    · exact not_mem_optFlag f _ (hk "-DCMAKE_CXX_FLAGS=" (by decide)) _ h6
    · exact not_mem_optFlag f _ (hk "-DCMAKE_EXE_LINKER_FLAGS=" (by decide)) _ h6
    · exact not_mem_optFlag f _ (hk "-DCMAKE_MODULE_LINKER_FLAGS=" (by decide)) _ h6
    · exact not_mem_optFlag f _ (hk "-DCMAKE_SHARED_LINKER_FLAGS=" (by decide)) _ h6

/-- C4: with `use_default_cmake_flags` false, none of the
platform-default flags of the host appears in the output, provided it
does not also occur among the config's own cmake_flags. -/
theorem C4_no_default_flags (host : Host) (isysroot : String) (b i : Option String)
    (config : LlvmBuildConfig) (f : String)
    (hud : config.use_default_cmake_flags = false)
    (hf : f ∈ platform_common_flags host)
    (hcf : f ∉ config.cmake_flags) :
    f ∉ construct_cmake_flags host isysroot b i config := by
  apply not_mem_construct_cmake_flags host isysroot b i config f hud hcf
  cases host with
  | windows =>
    simp only [platform_common_flags, List.mem_cons, List.not_mem_nil, or_false] at hf
    rcases hf with rfl | rfl | rfl <;> decide
  | darwin =>
    simp only [platform_common_flags, List.mem_cons, List.not_mem_nil, or_false] at hf
    subst hf
    decide
  | linux => simp [platform_common_flags] at hf
  | other => simp [platform_common_flags] at hf

/-- C4 witness: the macOS default flag is absent on a macOS host when
defaults are disabled. -/
theorem C4_witness :
    "-DLLVM_ENABLE_LIBCXX=ON" ∉
      construct_cmake_flags Host.darwin "" none none c4Config :=
  C4_no_default_flags Host.darwin "" none none c4Config "-DLLVM_ENABLE_LIBCXX=ON"
    rfl (by decide) (by decide)

/-- C10: for every BuildConfig, independently of the other fields, a
present-but-empty projects, runtimes or target_backends list emits the
corresponding flag with an empty value, whereas a present-but-empty
distribution_components list emits nothing - the output equals the
output with that field absent. -/
theorem C10_empty_list_fields (host : Host) (isysroot : String) (b i : Option String)
    (config : LlvmBuildConfig) :
    (config.projects = some [] →
      "-DLLVM_ENABLE_PROJECTS=" ∈ construct_cmake_flags host isysroot b i config) ∧
    (config.runtimes = some [] →
      "-DLLVM_ENABLE_RUNTIMES=" ∈ construct_cmake_flags host isysroot b i config) ∧
    (config.target_backends = some [] →
      "-DLLVM_TARGETS_TO_BUILD=" ∈ construct_cmake_flags host isysroot b i config) ∧
    (config.distribution_components = some [] →
      construct_cmake_flags host isysroot b i config =
        construct_cmake_flags host isysroot b i
          { config with distribution_components := none }) := by
  refine ⟨fun hp => ?_, fun hr => ?_, fun hb => ?_, fun hd => ?_⟩
  · rw [construct_cmake_flags_decomposition]
    simp [listValuedSegment, listFlag, optFlag, hp, pyJoin, List.mem_append]
  · rw [construct_cmake_flags_decomposition]
    simp [listValuedSegment, listFlag, optFlag, hr, pyJoin, List.mem_append]
  · rw [construct_cmake_flags_decomposition]
    simp [listValuedSegment, listFlag, optFlag, hb, pyJoin, List.mem_append]
  · simp [construct_cmake_flags, distComponentsFlag, hd]

/-- C10 witness: a concrete configuration with all four list fields
present but empty, exercising each of the four implications. -/
theorem C10_witness :
    "-DLLVM_ENABLE_PROJECTS=" ∈ construct_cmake_flags Host.linux "" none none c10Config ∧
    "-DLLVM_ENABLE_RUNTIMES=" ∈ construct_cmake_flags Host.linux "" none none c10Config ∧
    "-DLLVM_TARGETS_TO_BUILD=" ∈ construct_cmake_flags Host.linux "" none none c10Config ∧
    construct_cmake_flags Host.linux "" none none c10Config =
      construct_cmake_flags Host.linux "" none none
        { c10Config with distribution_components := none } := by
  have h := C10_empty_list_fields Host.linux "" none none c10Config
  exact ⟨h.1 rfl, h.2.1 rfl, h.2.2.1 rfl, h.2.2.2 rfl⟩

/-- Replacing `a` by a different `b` leaves no occurrence of `a`. -/
theorem pyReplaceChar_not_mem (a b : Char) (hab : b ≠ a) (s : String) :
    a ∉ (pyReplaceChar a b s).data := by
  unfold pyReplaceChar
  intro hm
  simp only [List.mem_map] at hm
  obtain ⟨c, _, he⟩ := hm
  by_cases h : c = a
  · rw [if_pos h] at he
    exact hab he
  · rw [if_neg h] at he
    exact h he

/-- Character replacement keeps a head character that is not replaced. -/
theorem pyReplaceChar_head (a b : Char) (s : String) (c : Char)
    (hc : s.data.head? = some c) (hca : c ≠ a) :
    (pyReplaceChar a b s).data.head? = some c := by
  unfold pyReplaceChar
  cases hd : s.data with
  | nil => rw [hd] at hc; exact absurd hc (by simp)
  | cons x xs =>
    rw [hd] at hc
    simp only [List.head?_cons, Option.some.injEq] at hc
    subst hc
    simp [if_neg hca]

/-- Appending to a slash-headed string keeps the slash head. -/
theorem string_append_head (s t : String) (h : s.data.head? = some '/') :
    (s ++ t).data.head? = some '/' := by
  rw [String.data_append]
  cases hd : s.data with
  | nil => rw [hd] at h; exact absurd h (by simp)
  | cons c cs =>
    rw [hd] at h
    simp only [List.head?_cons, Option.some.injEq] at h
    simp [h]

/-- A slash-headed path keeps at least one leading slash in `normpath`. -/
theorem initialSlashCount_pos (l : List Char) (h : l.head? = some '/') :
    1 ≤ initialSlashCount l := by
  unfold initialSlashCount
  rw [if_pos h]
  split
  · omega
  · split <;> omega

/-- POSIX `normpath` of a slash-headed path is slash-headed. -/
theorem posix_normpath_absolute (p : String) (h : p.data.head? = some '/') :
    (posix_normpath p).data.head? = some '/' := by
  have hp : p ≠ "" := by
    intro he
    subst he
    exact absurd h (by decide)
  unfold posix_normpath
  rw [if_neg hp]
  apply string_append_head
  have hk := initialSlashCount_pos p.data h
  obtain ⟨m, hm⟩ : ∃ m, initialSlashCount p.data = m + 1 :=
    ⟨_, (Nat.succ_pred_eq_of_pos hk).symm⟩
  rw [hm]
  simp [List.replicate_succ]

/-- POSIX `join` onto a slash-headed working directory is slash-headed. -/
theorem posix_join_head (a b : String) (ha : a.data.head? = some '/') :
    (posix_join a b).data.head? = some '/' := by
  unfold posix_join
  by_cases hb : b.data.head? = some '/'
  · rw [if_pos hb]
    exact hb
  · rw [if_neg hb]
    by_cases h2 : a = "" ∨ a.data.getLast? = some '/'
    · rw [if_pos h2]
      exact string_append_head a b ha
    · rw [if_neg h2]
      exact string_append_head (a ++ "/") b (string_append_head a "/" ha)

/-- POSIX `abspath` from a slash-headed working directory is
slash-headed. -/
theorem posix_abspath_absolute (cwd p : String) (hcwd : cwd.data.head? = some '/') :
    (posix_abspath cwd p).data.head? = some '/' := by
  unfold posix_abspath
  by_cases hp : p.data.head? = some '/'
  · rw [if_pos hp]
    exact posix_normpath_absolute p hp
  · rw [if_neg hp]
    exact posix_normpath_absolute _ (posix_join_head cwd p hcwd)

/-- C8: for every input path containing backslashes (the working
directory being absolute, as the operating system guarantees),
`absolute_path` returns a path with zero backslash characters that is
absolute (slash-headed). -/
theorem C8_absolute_path_normalizes (cwd p : String)
    (hcwd : cwd.data.head? = some '/')
    (hbs : '\\' ∈ p.data) :
    ∃ q, absolute_path cwd (some p) = some q ∧
      '\\' ∉ q.data ∧ q.data.head? = some '/' := by
  refine ⟨pyReplaceChar '\\' '/' (posix_abspath cwd p), rfl, ?_, ?_⟩
  · exact pyReplaceChar_not_mem '\\' '/' (by decide) _
  · exact pyReplaceChar_head '\\' '/' _ '/' (posix_abspath_absolute cwd p hcwd) (by decide)

/-- C8 witness: a concrete backslash-containing relative path. -/
theorem C8_witness :
    ∃ q, absolute_path "/home" (some "a\\b") = some q ∧
      '\\' ∉ q.data ∧ q.data.head? = some '/' :=
  C8_absolute_path_normalizes "/home" "a\\b" (by decide) (by decide)

end LlvmBuilder
